import Mathlib

/-!
Verification development for the sumo_updates news pipeline.

The JavaScript sources are embedded shallowly:
* JS strings are modelled as lists of UTF-16 code units (`JStr`), so that
  `String.prototype.length`, `substring`, `includes`, `toLowerCase`, `trim`
  and template concatenation translate to list operations with the same
  unit-counting semantics as JS.
* The network and the OpenAI backend are modelled as explicit function
  parameters returning `Except` values: an `Except.error` result models a
  thrown exception, an `Except.ok` result models a successful response.
* `async`/`await` sequencing is direct function composition (one logical
  thread, no concurrency in the source pipeline).
-/

namespace SumoUpdates

/-- A JavaScript string, as its sequence of UTF-16 code units
(JS `String.prototype.length` counts these units). -/
abbrev JStr := List Nat

/-- Embed an ASCII/BMP Lean string literal as a `JStr` (all characters used in
the embedded literals are single UTF-16 units, so code-point mapping agrees
with UTF-16 units for them). -/
def jstr (s : String) : JStr := s.data.map Char.toNat

/-- ASCII case mapping on one UTF-16 code unit, as JS `toLowerCase` acts on
the ASCII range (the embedded keyword and exclusion literals are all ASCII). -/
def toLowerCode (u : Nat) : Nat := if 65 ≤ u ∧ u ≤ 90 then u + 32 else u

/-- JS `String.prototype.toLowerCase`, restricted to ASCII case mapping. -/
def toLowerCase (s : JStr) : JStr := s.map toLowerCode

/-- JS whitespace code units recognised by `String.prototype.trim`. -/
def isJsWhitespace (u : Nat) : Bool :=
  u = 9 || u = 10 || u = 11 || u = 12 || u = 13 || u = 32 || u = 160 || u = 65279

/-- JS `String.prototype.trim`: strip whitespace units from both ends. -/
def jtrim (s : JStr) : JStr :=
  ((s.dropWhile isJsWhitespace).reverse.dropWhile isJsWhitespace).reverse

/-- JS `s.includes(pat)`: `pat` occurs contiguously inside `s`. -/
def jincludes : JStr → JStr → Bool
  | [], pat => pat.isEmpty
  | a :: rest, pat => pat.isPrefixOf (a :: rest) || jincludes rest pat

/-- Does an `Except` value model a thrown exception? -/
def isError : Except JStr JStr → Bool
  | .error _ => true
  | .ok _ => false

/-- One scraped news candidate, as built in `scrapeNews` (src/src/scraper.js):
`{ title, url, date, rawText }`; `content` is absent (`none`) until the
article-enrichment step of `SumoNewsApp.run` assigns it. -/
structure NewsItem where
  title : JStr
  url : JStr
  date : JStr
  rawText : JStr
  content : Option JStr := none
deriving DecidableEq

/-- A news item after `AIProcessor.processBatch` (src/unnamed/part_002):
the JS spread `{ ...item, summary, processedAt }`. -/
structure SummarizedItem extends NewsItem where
  summary : JStr
  processedAt : Option JStr
deriving DecidableEq

/-- The subject/intro pair returned by `AIProcessor.createEmailDigest`. -/
structure EmailMeta where
  subject : JStr
  intro : JStr
deriving DecidableEq

/-- The composed outbound digest: the `emailMeta` pair together with the
summarized items handed to `EmailSender.sendNewsDigest`. -/
structure Digest where
  subject : JStr
  intro : JStr
  items : List SummarizedItem
deriving DecidableEq

/-! ## Scraper (src/src/scraper.js) -/

/-- The keyword list of `SumoNewsScraper.isNewsContent`. -/
def newsKeywords : List JStr :=
  [jstr "tournament", jstr "champion", jstr "promotion", jstr "sumo",
   jstr "wrestler", jstr "bout", jstr "winner", jstr "result", jstr "ranking",
   jstr "ceremony", jstr "yokozuna", jstr "ozeki", jstr "sekiwake",
   jstr "komusubi", jstr "maegashira", jstr "juryo"]

/-- `SumoNewsScraper.isNewsContent(text, href)`:
keyword match on lowercased title or URL, plus a 10–200 length band. -/
def isNewsContent (text href : JStr) : Bool :=
  (newsKeywords.any fun keyword =>
    jincludes (toLowerCase text) keyword || jincludes (toLowerCase href) keyword)
  && decide (10 < text.length) && decide (text.length < 200)

/-- The key used by `removeDuplicates`: `item.title.toLowerCase().trim()`. -/
def dedupeKey (item : NewsItem) : JStr := jtrim (toLowerCase item.title)

/-- The `filter`-with-`Set` loop of `SumoNewsScraper.removeDuplicates`, with
the mutable `seen` set made an explicit accumulator of already-seen keys. -/
def removeDuplicatesAux : List JStr → List NewsItem → List NewsItem
  | _, [] => []
  | seen, item :: rest =>
    if seen.contains (dedupeKey item) then removeDuplicatesAux seen rest
    else item :: removeDuplicatesAux (dedupeKey item :: seen) rest

/-- `SumoNewsScraper.removeDuplicates(newsItems)`. -/
def removeDuplicates (newsItems : List NewsItem) : List NewsItem :=
  removeDuplicatesAux [] newsItems

/-- The exclusion list of `SumoNewsScraper.filterRelevantNews`. -/
def excludePatterns : List JStr :=
  [jstr "home", jstr "contact", jstr "about", jstr "privacy", jstr "terms",
   jstr "site map", jstr "english", jstr "japanese", jstr "menu"]

/-- `SumoNewsScraper.filterRelevantNews(newsItems)`: drop items whose
lowercased title contains an exclusion pattern or whose title length is
outside the strict band 15 < length < 150. -/
def filterRelevantNews (newsItems : List NewsItem) : List NewsItem :=
  newsItems.filter fun item =>
    !(excludePatterns.any fun pat => jincludes (toLowerCase item.title) pat)
    && decide (15 < item.title.length) && decide (item.title.length < 150)

/-- The pure tail of `SumoNewsScraper.scrapeNews`, applied to the candidate
list collected from the page markup (the cheerio traversal is I/O over
uncontrolled HTML and is abstracted as the `collected` input):
`removeDuplicates` then `filterRelevantNews` then `.slice(0, 5)`. -/
def scrapeNewsPipeline (collected : List NewsItem) : List NewsItem :=
  (filterRelevantNews (removeDuplicates collected)).take 5

/-! ## AI processor (src/unnamed/part_002) -/

/-- The UTF-16 units of the template head of the fallback summary,
the emoji marker and a space: `"🥋 "` is the surrogate pair
`0xD83E 0xDD4B` followed by `0x20`. -/
def emojiMarker : JStr := [0xD83E, 0xDD4B, 32]

/-- The three-unit ellipsis marker `"..."` appended on truncation. -/
def dots : JStr := jstr "..."

/-- `AIProcessor.createFallbackSummary(newsItem)`: derive the summary from
the title alone, truncating when the title exceeds 280 units. -/
def createFallbackSummary (newsItem : NewsItem) : JStr :=
  if newsItem.title.length ≤ 280 then emojiMarker ++ newsItem.title
  else emojiMarker ++ newsItem.title.take 275 ++ dots

/-- `AIProcessor.createTweetLikeSummary(newsItem)`, with the OpenAI chat call
abstracted as `backend` (`.ok` = response message content, `.error` = thrown
exception): trim the response, clamp to 280 units with an appended ellipsis,
and fall back to `createFallbackSummary` on any error. -/
def createTweetLikeSummary (backend : NewsItem → Except JStr JStr)
    (newsItem : NewsItem) : JStr :=
  match backend newsItem with
  | .ok content =>
    let summary := jtrim content
    if 280 < summary.length then summary.take 277 ++ dots else summary
  | .error _ => createFallbackSummary newsItem

/-- `AIProcessor.processBatch(newsItems)`: summarize each item in order and
stamp `processedAt` (the JS per-iteration `new Date().toISOString()` is
abstracted as the single run timestamp `now`; the inter-item 1 s delay is
pure timing and does not affect the data). -/
def processBatch (backend : NewsItem → Except JStr JStr) (now : JStr)
    (newsItems : List NewsItem) : List SummarizedItem :=
  newsItems.map fun item =>
    { toNewsItem := item
      summary := createTweetLikeSummary backend item
      processedAt := some now }

/-- The static default subject of `AIProcessor.createEmailDigest`. -/
def defaultSubject : JStr := jstr "Sumo Wrestling News Update"

/-- The static default intro of `AIProcessor.createEmailDigest`. -/
def defaultIntro : JStr :=
  jstr "Here are the latest updates from the world of sumo wrestling!"

/-- One step of the `lines.forEach` parse loop of
`AIProcessor.createEmailDigest`: a line starting with the `SUBJECT:` label
overwrites the subject, one starting with `INTRO:` overwrites the intro
(`replace` of a leading label is dropping its length, then `trim`). -/
def parseDigestLine (meta : EmailMeta) (line : JStr) : EmailMeta :=
  if (jstr "SUBJECT:").isPrefixOf line then
    { meta with subject := jtrim (line.drop 8) }
  else if (jstr "INTRO:").isPrefixOf line then
    { meta with intro := jtrim (line.drop 6) }
  else meta

/-- JS `s.split('\n')` (code unit 10). -/
def splitLines (s : JStr) : List JStr :=
  s.splitOn 10

/-- `AIProcessor.createEmailDigest(summaries)`: ask the backend for a
labelled two-line response and parse it, starting from the static defaults;
on any thrown error return the static defaults. -/
def createEmailDigest (digestBackend : List SummarizedItem → Except JStr JStr)
    (summaries : List SummarizedItem) : EmailMeta :=
  match digestBackend summaries with
  | .ok raw =>
    (splitLines (jtrim raw)).foldl parseDigestLine
      { subject := defaultSubject, intro := defaultIntro }
  | .error _ => { subject := defaultSubject, intro := defaultIntro }

/-! ## Emailer (src/unnamed/part_000) -/

/-- The two JS result objects of `EmailSender.sendNewsDigest`:
`{ success: true, messageId }` and `{ success: false, error }`. -/
inductive SendOutcome where
  | success (messageId : JStr) : SendOutcome
  | failure (error : JStr) : SendOutcome
deriving DecidableEq

/-- `EmailSender.sendNewsDigest(summaries, emailMeta)`, with the SMTP
transport (`transporter.sendMail` plus the mail construction inside the
`try`) abstracted as `transport`. The empty-digest guard executes
`return;`, i.e. the JS function yields `undefined` — modelled as `none`;
the `catch` arm yields the `success: false` record. -/
def sendNewsDigest (transport : List SummarizedItem → EmailMeta → Except JStr JStr)
    (summaries : List SummarizedItem) (emailMeta : EmailMeta) : Option SendOutcome :=
  if summaries.length = 0 then none
  else
    match transport summaries emailMeta with
    | .ok messageId => some (.success messageId)
    | .error e => some (.failure e)

/-! ## Application run (src/unnamed/part_001) -/

/-- The external collaborators and inputs of one `SumoNewsApp.run`:
the candidate items collected from the page markup, the article-body fetch
(`scrapeArticleContent`, which catches its own errors and returns a string),
the two OpenAI calls, the SMTP transport, and the run timestamp. -/
structure RunEnv where
  collected : List NewsItem
  articleFetch : NewsItem → JStr
  backend : NewsItem → Except JStr JStr
  digestBackend : List SummarizedItem → Except JStr JStr
  transport : List SummarizedItem → EmailMeta → Except JStr JStr
  now : JStr

/-- The observable outcome of one `SumoNewsApp.run`: the early
`No news items found` return, a sent digest with its message id, a composed
digest whose delivery failed, or the outer `catch` (unreachable data-wise,
kept for the `undefined` delivery result shape). -/
inductive RunOutcome where
  | noNews : RunOutcome
  | sent (digest : Digest) (messageId : JStr) : RunOutcome
  | sendFailed (digest : Digest) (error : JStr) : RunOutcome
  | appError : RunOutcome
deriving DecidableEq

/-- Which collaborators a run invoked: the AI summarizer (`processBatch`),
the digest composer (`createEmailDigest`) and the delivery gateway
(`sendNewsDigest`). -/
structure RunTrace where
  summarizer : Bool
  composer : Bool
  delivery : Bool
deriving DecidableEq

/-- The article-content enrichment loop of `SumoNewsApp.run` (step 2):
`item.content = await this.scraper.scrapeArticleContent(item.url)`. -/
def enrichItems (articleFetch : NewsItem → JStr) (newsItems : List NewsItem) :
    List NewsItem :=
  newsItems.map fun item => { item with content := some (articleFetch item) }

/-- `SumoNewsApp.run()` (src/unnamed/part_001): scrape, early-return on zero
items, enrich with article bodies, summarize, compose the email meta, send,
and report the send result — paired with the trace of which collaborators
ran. -/
def run (env : RunEnv) : RunOutcome × RunTrace :=
  let newsItems := scrapeNewsPipeline env.collected
  if newsItems.length = 0 then (.noNews, ⟨false, false, false⟩)
  else
    let enriched := enrichItems env.articleFetch newsItems
    let processedItems := processBatch env.backend env.now enriched
    let emailMeta := createEmailDigest env.digestBackend processedItems
    match sendNewsDigest env.transport processedItems emailMeta with
    | some (.success id) =>
      (.sent ⟨emailMeta.subject, emailMeta.intro, processedItems⟩ id,
       ⟨true, true, true⟩)
    | some (.failure e) =>
      (.sendFailed ⟨emailMeta.subject, emailMeta.intro, processedItems⟩ e,
       ⟨true, true, true⟩)
    | none => (.appError, ⟨true, true, true⟩)

/-- The digest a run outcome carries, when it composed one. -/
def digestOf : RunOutcome → Option Digest
  | .sent d _ => some d
  | .sendFailed d _ => some d
  | .noNews => none
  | .appError => none

/-! ## Cross-run state tracking (modelled from the spec) -/

/-- Modelled from the spec: the State Tracker (the repository's
`src/database.py`, referenced by the README and the automation scripts but
not present under the provided sources) keeps the set of URLs already marked
processed. Its `hasSeen` consultation happens before the deduplicator, so a
run starts from the collected candidates whose URL is not yet processed. -/
def trackedFresh (processedUrls : List JStr) (env : RunEnv) : List NewsItem :=
  env.collected.filter fun item => !(processedUrls.contains item.url)

/-- Modelled from the spec: one tracked run — the State Tracker is consulted
before the deduplicator and `markProcessed` (idempotent: already-present
URLs are not re-added) runs only after the Delivery Gateway reports
success. -/
def trackedRun (processedUrls : List JStr) (env : RunEnv) :
    (RunOutcome × RunTrace) × List JStr :=
  let r := run { env with collected := trackedFresh processedUrls env }
  match r.1 with
  | .sent d _ =>
    (r, processedUrls ++
      (d.items.map fun item => item.url).filter
        fun u => !(processedUrls.contains u))
  | _ => (r, processedUrls)

/-! ## Concrete example data (used by witnesses and counterexamples) -/

/-- Title of the first item of the specification's end-to-end example. -/
def exTitleA : JStr := jstr "Terunofuji wins July tournament 13-2"

/-- First example item. -/
def exItemA : NewsItem :=
  { title := exTitleA, url := jstr "https://www.sumo.or.jp/a",
    date := jstr "2025-01-01", rawText := exTitleA }

/-- Title of the second surviving item of the end-to-end example. -/
def exTitleC : JStr := jstr "Onosato promoted to sekiwake after 11-4 record"

/-- Second example item. -/
def exItemC : NewsItem :=
  { title := exTitleC, url := jstr "https://www.sumo.or.jp/c",
    date := jstr "2025-01-01", rawText := exTitleC }

/-- Example run timestamp. -/
def exNow : JStr := jstr "2025-01-01T00:00:00Z"

/-- An example run environment in which every external call fails: both
OpenAI calls throw and the SMTP transport throws. -/
def exFailEnv : RunEnv :=
  { collected := [exItemA, exItemC]
    articleFetch := fun _ => []
    backend := fun _ => .error (jstr "ai down")
    digestBackend := fun _ => .error (jstr "ai down")
    transport := fun _ _ => .error (jstr "smtp down")
    now := exNow }

/-- The summarized form of `exItemA` produced by a run of `exFailEnv`. -/
def exProcessedA : SummarizedItem :=
  { toNewsItem := { exItemA with content := some [] }
    summary := emojiMarker ++ exTitleA
    processedAt := some exNow }

/-- The summarized form of `exItemC` produced by a run of `exFailEnv`. -/
def exProcessedC : SummarizedItem :=
  { toNewsItem := { exItemC with content := some [] }
    summary := emojiMarker ++ exTitleC
    processedAt := some exNow }

/-- The digest composed by a run of `exFailEnv`. -/
def exFailDigest : Digest := ⟨defaultSubject, defaultIntro, [exProcessedA, exProcessedC]⟩

/-- The example environment with a transport that succeeds. -/
def exOkEnv : RunEnv := { exFailEnv with transport := fun _ _ => .ok (jstr "mid-1") }

/-- An example persisted-state URL set containing the URL of `exItemA`. -/
def exState : List JStr := [jstr "https://www.sumo.or.jp/a"]

/-- The digest composed by a tracked run of `exOkEnv` from `exState`:
only `exItemC` survives the cross-run URL filter. -/
def exTrackedDigest : Digest := ⟨defaultSubject, defaultIntro, [exProcessedC]⟩

/-- The example environment with an empty collected-candidate list. -/
def exEmptyEnv : RunEnv := { exFailEnv with collected := [] }

/-- A duplicate of `exItemA` under the dedup key: same title up to case and
surrounding whitespace, different URL. -/
def exDupItem : NewsItem :=
  { exItemA with
    url := jstr "https://www.sumo.or.jp/a2",
    title := jstr "  TERUNOFUJI WINS JULY TOURNAMENT 13-2 " }

/-- An example candidate list containing a case/whitespace duplicate. -/
def exDupList : List NewsItem := [exItemA, exDupItem, exItemC]

/-- A relevant-looking candidate whose title contains the word
`sitemap` (without a space). -/
def sitemapItem : NewsItem :=
  { title := jstr "sumo tournament sitemap overview",
    url := jstr "https://www.sumo.or.jp/sitemap",
    date := jstr "2025-01-01",
    rawText := jstr "sumo tournament sitemap overview" }

/-- An example email meta pair. -/
def exMeta : EmailMeta := ⟨defaultSubject, defaultIntro⟩

/-! ## Helper lemmas -/

/-- Updating the `content` field leaves the title unchanged. -/
@[simp] lemma content_update_title (item : NewsItem) (c : Option JStr) :
    ({ item with content := c } : NewsItem).title = item.title := rfl

/-- Updating the `content` field leaves the URL unchanged. -/
@[simp] lemma content_update_url (item : NewsItem) (c : Option JStr) :
    ({ item with content := c } : NewsItem).url = item.url := rfl

lemma removeDuplicatesAux_sublist (seen : List JStr) (l : List NewsItem) :
    (removeDuplicatesAux seen l).Sublist l := by
  induction l generalizing seen with
  | nil => simp [removeDuplicatesAux]
  | cons x rest ih =>
    simp only [removeDuplicatesAux]
    split
    · exact (ih seen).cons x
    · exact (ih _).cons₂ x

lemma contains_eq_false_of_mem_removeDuplicatesAux {seen : List JStr}
    {l : List NewsItem} {a : NewsItem} (h : a ∈ removeDuplicatesAux seen l) :
    seen.contains (dedupeKey a) = false := by
  induction l generalizing seen with
  | nil => simp [removeDuplicatesAux] at h
  | cons x rest ih =>
    simp only [removeDuplicatesAux] at h
    split at h
    · exact ih h
    · rename_i hx
      rcases List.mem_cons.mp h with rfl | h2
      · simpa using hx
      · have h3 := ih h2
        simp only [List.contains_cons, Bool.or_eq_false_iff] at h3
        exact h3.2

lemma pairwise_removeDuplicatesAux (seen : List JStr) (l : List NewsItem) :
    (removeDuplicatesAux seen l).Pairwise fun a b => dedupeKey a ≠ dedupeKey b := by
  induction l generalizing seen with
  | nil => simp [removeDuplicatesAux]
  | cons x rest ih =>
    simp only [removeDuplicatesAux]
    split
    · exact ih seen
    · refine List.Pairwise.cons ?_ (ih _)
      intro b hb
      have h3 := contains_eq_false_of_mem_removeDuplicatesAux hb
      simp only [List.contains_cons, Bool.or_eq_false_iff] at h3
      exact fun hkey => (beq_eq_false_iff_ne.mp h3.1) hkey.symm

lemma firstSeen_mem_removeDuplicatesAux {l : List NewsItem} {seen : List JStr}
    {it it0 : NewsItem} (hmem : it ∈ l)
    (hseen : seen.contains (dedupeKey it) = false)
    (hfind : l.find? (fun x => dedupeKey x == dedupeKey it) = some it0) :
    it0 ∈ removeDuplicatesAux seen l := by
  induction l generalizing seen with
  | nil => simp at hmem
  | cons x rest ih =>
    by_cases hx : (dedupeKey x == dedupeKey it) = true
    · simp only [List.find?, hx] at hfind
      have hx0 : x = it0 := by simpa using hfind
      have hkey : dedupeKey x = dedupeKey it := by simpa using hx
      have hc : seen.contains (dedupeKey x) = false := by rw [hkey]; exact hseen
      simp only [removeDuplicatesAux]
      rw [if_neg (by simpa using hc)]
      exact List.mem_cons.mpr (Or.inl hx0.symm)
    · have hxf : (dedupeKey x == dedupeKey it) = false := by simpa using hx
      simp only [List.find?, hxf] at hfind
      have hne : dedupeKey x ≠ dedupeKey it := beq_eq_false_iff_ne.mp hxf
      have hmem2 : it ∈ rest := by
        rcases List.mem_cons.mp hmem with rfl | h2
        · exact absurd rfl hne
        · exact h2
      simp only [removeDuplicatesAux]
      split
      · exact ih hmem2 hseen hfind
      · refine List.mem_cons_of_mem x (ih hmem2 ?_ hfind)
        simp only [List.contains_cons, Bool.or_eq_false_iff]
        exact ⟨beq_eq_false_iff_ne.mpr fun he => hne he.symm, hseen⟩

lemma mem_filterRelevantNews {l : List NewsItem} {item : NewsItem}
    (h : item ∈ filterRelevantNews l) :
    (excludePatterns.any fun pat => jincludes (toLowerCase item.title) pat) = false
    ∧ 15 < item.title.length ∧ item.title.length < 150 := by
  have hp := (List.mem_filter.mp h).2
  simp only [Bool.and_eq_true, decide_eq_true_eq] at hp
  obtain ⟨⟨h1, h2⟩, h3⟩ := hp
  refine ⟨?_, h2, h3⟩
  simpa using h1

lemma mem_of_mem_scrapeNewsPipeline {l : List NewsItem} {it : NewsItem}
    (h : it ∈ scrapeNewsPipeline l) : it ∈ l := by
  have h1 : it ∈ filterRelevantNews (removeDuplicates l) :=
    (List.take_sublist _ _).mem h
  have h2 : it ∈ removeDuplicates l := (List.mem_filter.mp h1).1
  exact (removeDuplicatesAux_sublist [] l).mem h2

lemma title_lt_150_of_mem_scrapeNewsPipeline {l : List NewsItem} {it : NewsItem}
    (h : it ∈ scrapeNewsPipeline l) : it.title.length < 150 :=
  (mem_filterRelevantNews ((List.take_sublist _ _).mem h)).2.2

lemma isError_eq_error {r : Except JStr JStr} (h : isError r = true) :
    ∃ e, r = .error e := by
  cases r with
  | ok a => simp [isError] at h
  | error e => exact ⟨e, rfl⟩

lemma createTweetLikeSummary_length_le (backend : NewsItem → Except JStr JStr)
    (item : NewsItem) (h : item.title.length ≤ 277) :
    (createTweetLikeSummary backend item).length ≤ 280 := by
  cases hb : backend item with
  | ok content =>
    simp only [createTweetLikeSummary, hb]
    split
    · rename_i hlong
      rw [List.length_append, List.length_take]
      have hd : dots.length = 3 := rfl
      omega
    · rename_i hshort
      omega
  | error e =>
    simp only [createTweetLikeSummary, hb, createFallbackSummary]
    rw [if_pos (by omega)]
    rw [List.length_append]
    have hm : emojiMarker.length = 3 := rfl
    omega

lemma run_noNews (env : RunEnv) (h : scrapeNewsPipeline env.collected = []) :
    run env = (.noNews, ⟨false, false, false⟩) := by
  simp [run, h]

lemma processBatch_length_ne_zero (env : RunEnv)
    (hne : scrapeNewsPipeline env.collected ≠ []) :
    (processBatch env.backend env.now
      (enrichItems env.articleFetch (scrapeNewsPipeline env.collected))).length ≠ 0 := by
  simpa [processBatch, enrichItems, List.length_eq_zero] using hne

lemma run_digest_some (env : RunEnv) (hne : scrapeNewsPipeline env.collected ≠ []) :
    digestOf (run env).1 = some
      ⟨(createEmailDigest env.digestBackend (processBatch env.backend env.now
          (enrichItems env.articleFetch (scrapeNewsPipeline env.collected)))).subject,
       (createEmailDigest env.digestBackend (processBatch env.backend env.now
          (enrichItems env.articleFetch (scrapeNewsPipeline env.collected)))).intro,
       processBatch env.backend env.now
         (enrichItems env.articleFetch (scrapeNewsPipeline env.collected))⟩ := by
  have hlen : ¬((scrapeNewsPipeline env.collected).length = 0) := by
    simpa [List.length_eq_zero] using hne
  have hlen2 := processBatch_length_ne_zero env hne
  simp only [run]
  rw [if_neg hlen]
  split
  · rename_i id heq
    simp [digestOf]
  · rename_i e heq
    simp [digestOf]
  · rename_i heq
    exfalso
    unfold sendNewsDigest at heq
    rw [if_neg hlen2] at heq
    split at heq <;> simp at heq

lemma run_digest_eq (env : RunEnv) (d : Digest)
    (hd : digestOf (run env).1 = some d) :
    d.subject = (createEmailDigest env.digestBackend (processBatch env.backend env.now
        (enrichItems env.articleFetch (scrapeNewsPipeline env.collected)))).subject
    ∧ d.intro = (createEmailDigest env.digestBackend (processBatch env.backend env.now
        (enrichItems env.articleFetch (scrapeNewsPipeline env.collected)))).intro
    ∧ d.items = processBatch env.backend env.now
        (enrichItems env.articleFetch (scrapeNewsPipeline env.collected)) := by
  by_cases hz : scrapeNewsPipeline env.collected = []
  · rw [run_noNews env hz] at hd
    simp [digestOf] at hd
  · rw [run_digest_some env hz] at hd
    have hd2 := Option.some_injective _ hd
    subst hd2
    exact ⟨rfl, rfl, rfl⟩

lemma trackedRun_fst (processedUrls : List JStr) (env : RunEnv) :
    (trackedRun processedUrls env).1 =
      run { env with collected := trackedFresh processedUrls env } := by
  simp only [trackedRun]
  split <;> rfl

/-! ## Claim theorems -/

/-- C1: for every run environment (hence every generative-backend behaviour,
including over-length responses and the thrown-error fallback path), every
item of a digest the run composes has a summary of at most 280 UTF-16
units. -/
theorem summaries_length_le_280 (env : RunEnv) (d : Digest)
    (hd : digestOf (run env).1 = some d) :
    ∀ it ∈ d.items, it.summary.length ≤ 280 := by
  intro it hit
  rw [(run_digest_eq env d hd).2.2] at hit
  simp only [processBatch, List.mem_map] at hit
  obtain ⟨src, hsrc, rfl⟩ := hit
  simp only [enrichItems, List.mem_map] at hsrc
  obtain ⟨orig, horig, rfl⟩ := hsrc
  have htitle := title_lt_150_of_mem_scrapeNewsPipeline horig
  refine createTweetLikeSummary_length_le env.backend _ ?_
  simp only [content_update_title]
  omega

/-- C1 witness: in the concrete all-failing environment, the run composes
the concrete digest and its first item's summary is within the bound. -/
theorem summaries_length_le_280_witness :
    digestOf (run exFailEnv).1 = some exFailDigest
    ∧ exProcessedA ∈ exFailDigest.items
    ∧ exProcessedA.summary.length ≤ 280 :=
  ⟨by decide, by decide,
   summaries_length_le_280 exFailEnv exFailDigest (by decide) exProcessedA (by decide)⟩

/-- C2: in a tracked run (State Tracker modelled from the spec), an item
whose URL is in the persisted processed-URL set never appears in the digest
the run composes. -/
theorem trackedRun_excludes_processed_urls (processedUrls : List JStr)
    (env : RunEnv) (url : JStr) (d : Digest)
    (hurl : url ∈ processedUrls)
    (hd : digestOf (trackedRun processedUrls env).1.1 = some d) :
    ∀ it ∈ d.items, it.url ≠ url := by
  rw [trackedRun_fst] at hd
  intro it hit
  rw [(run_digest_eq _ d hd).2.2] at hit
  simp only [processBatch, List.mem_map] at hit
  obtain ⟨src, hsrc, rfl⟩ := hit
  simp only [enrichItems, List.mem_map] at hsrc
  obtain ⟨orig, horig, rfl⟩ := hsrc
  have hmem : orig ∈ trackedFresh processedUrls env :=
    mem_of_mem_scrapeNewsPipeline horig
  have hc := (List.mem_filter.mp hmem).2
  have hnot : orig.url ∉ processedUrls := by simpa using hc
  intro hequrl
  exact hnot (hequrl ▸ hurl)

/-- C2 witness: with the URL of `exItemA` already processed, the tracked run
composes a digest containing only `exItemC`, whose URL differs. -/
theorem trackedRun_excludes_processed_urls_witness :
    (jstr "https://www.sumo.or.jp/a") ∈ exState
    ∧ digestOf (trackedRun exState exOkEnv).1.1 = some exTrackedDigest
    ∧ exProcessedC ∈ exTrackedDigest.items
    ∧ exProcessedC.url ≠ jstr "https://www.sumo.or.jp/a" :=
  ⟨by decide, by decide, by decide,
   trackedRun_excludes_processed_urls exState exOkEnv (jstr "https://www.sumo.or.jp/a")
     exTrackedDigest (by decide) (by decide) exProcessedC (by decide)⟩

/-- C3: deduplication returns a sublist (order-preserving subset) of its
input in which no two kept items share the normalized lowercase-trimmed
title key, and for every input item the first-seen input item with the same
key is the one kept. -/
theorem removeDuplicates_unique_firstSeen_stable (l : List NewsItem) :
    ((removeDuplicates l).Pairwise fun a b => dedupeKey a ≠ dedupeKey b)
    ∧ (removeDuplicates l).Sublist l
    ∧ ∀ it ∈ l, ∀ it0,
        l.find? (fun x => dedupeKey x == dedupeKey it) = some it0 →
        it0 ∈ removeDuplicates l :=
  ⟨pairwise_removeDuplicatesAux [] l, removeDuplicatesAux_sublist [] l,
   fun _ hit _ hfind => firstSeen_mem_removeDuplicatesAux hit rfl hfind⟩

/-- C3 witness: in a list with a case/whitespace duplicate of the first
item, the first-seen item is the one kept. -/
theorem removeDuplicates_unique_firstSeen_stable_witness :
    exDupItem ∈ exDupList
    ∧ exDupList.find? (fun x => dedupeKey x == dedupeKey exDupItem) = some exItemA
    ∧ exItemA ∈ removeDuplicates exDupList :=
  ⟨by decide, by decide,
   (removeDuplicates_unique_firstSeen_stable exDupList).2.2 exDupItem (by decide)
     exItemA (by decide)⟩

/-- C4: when every generative-backend call throws, a run with surviving
items still composes a digest (no error outcome): its subject and intro are
the static defaults and each summary is the deterministic title-only
fallback. -/
theorem run_backend_failure_fallback_digest (env : RunEnv)
    (hb : ∀ item, isError (env.backend item) = true)
    (hdb : ∀ s, isError (env.digestBackend s) = true)
    (hne : scrapeNewsPipeline env.collected ≠ []) :
    ∃ d, digestOf (run env).1 = some d ∧ d.items ≠ []
      ∧ d.subject = defaultSubject ∧ d.intro = defaultIntro
      ∧ d.items.map (fun it => it.summary)
          = (scrapeNewsPipeline env.collected).map createFallbackSummary := by
  obtain ⟨e, he⟩ := isError_eq_error (hdb (processBatch env.backend env.now
    (enrichItems env.articleFetch (scrapeNewsPipeline env.collected))))
  refine ⟨_, run_digest_some env hne, ?_, ?_, ?_, ?_⟩
  · simpa [processBatch, enrichItems, ← List.length_eq_zero] using
      processBatch_length_ne_zero env hne
  · simp [createEmailDigest, he]
  · simp [createEmailDigest, he]
  · simp only [processBatch, enrichItems, List.map_map]
    refine List.map_congr_left ?_
    intro orig horig
    obtain ⟨e2, he2⟩ := isError_eq_error
      (hb ({ orig with content := some (env.articleFetch orig) }))
    show createTweetLikeSummary env.backend
      ({ orig with content := some (env.articleFetch orig) }) = createFallbackSummary orig
    simp only [createTweetLikeSummary, he2]
    rfl

/-- C4 witness: the concrete all-failing environment composes the expected
fallback digest. -/
theorem run_backend_failure_fallback_digest_witness :
    ∃ d, digestOf (run exFailEnv).1 = some d ∧ d.items ≠ []
      ∧ d.subject = defaultSubject ∧ d.intro = defaultIntro
      ∧ d.items.map (fun it => it.summary)
          = (scrapeNewsPipeline exFailEnv.collected).map createFallbackSummary :=
  run_backend_failure_fallback_digest exFailEnv (fun _ => rfl) (fun _ => rfl) (by decide)

/-- C5: when zero candidates survive the cross-run URL filter, relevance
filtering and deduplication, the tracked run reports the no-news outcome,
invokes neither the summarizer nor the composer nor the delivery gateway,
and leaves the persisted processed-URL set unchanged. -/
theorem trackedRun_no_surviving_items (processedUrls : List JStr) (env : RunEnv)
    (h : scrapeNewsPipeline (trackedFresh processedUrls env) = []) :
    (trackedRun processedUrls env).1 = (.noNews, ⟨false, false, false⟩)
    ∧ (trackedRun processedUrls env).2 = processedUrls := by
  have hr : run { env with collected := trackedFresh processedUrls env } =
      (.noNews, ⟨false, false, false⟩) := run_noNews _ h
  constructor
  · rw [trackedRun_fst]; exact hr
  · simp [trackedRun, hr]

/-- C5 witness: with nothing collected, the tracked run is a no-news run
and the state is untouched. -/
theorem trackedRun_no_surviving_items_witness :
    (trackedRun exState exEmptyEnv).1 = (RunOutcome.noNews, ⟨false, false, false⟩)
    ∧ (trackedRun exState exEmptyEnv).2 = exState :=
  trackedRun_no_surviving_items exState exEmptyEnv (by decide)

/-- C6 counterexample: in a run whose delivery fails, every digest item
already carries a `processedAt` timestamp — `processBatch` stamps it before
delivery is attempted, so the claim that a failed-delivery run leaves
`processedAt` unset is false on this concrete run. -/
theorem run_failed_delivery_processedAt_cex :
    (run exFailEnv).1 = RunOutcome.sendFailed exFailDigest (jstr "smtp down")
    ∧ (exFailDigest.items.all fun it => it.processedAt.isSome) = true
    ∧ exFailDigest.items ≠ [] := by
  refine ⟨by decide, by decide, by decide⟩

/-- C6 (amended): `processedAt` is stamped with the run timestamp at batch
summarization time, on every digest item, regardless of the delivery
outcome. -/
theorem run_processedAt_set_at_summarization (env : RunEnv) (d : Digest)
    (hd : digestOf (run env).1 = some d) :
    ∀ it ∈ d.items, it.processedAt = some env.now := by
  intro it hit
  rw [(run_digest_eq env d hd).2.2] at hit
  simp only [processBatch, List.mem_map] at hit
  obtain ⟨src, hsrc, rfl⟩ := hit
  rfl

/-- C6 amended-claim witness: the concrete failed-delivery run stamps the
first digest item with the run timestamp. -/
theorem run_processedAt_set_at_summarization_witness :
    exProcessedA.processedAt = some exFailEnv.now :=
  run_processedAt_set_at_summarization exFailEnv exFailDigest (by decide)
    exProcessedA (by decide)

/-- C7 counterexample: a candidate whose title contains the navigational
term written `sitemap` (no space) passes the relevance filter, because the
code's exclusion pattern is the two-word `site map`; so the claim's
exclusion of `sitemap` titles is false on this concrete candidate. -/
theorem filterRelevantNews_sitemap_cex :
    jincludes (toLowerCase sitemapItem.title) (jstr "sitemap") = true
    ∧ filterRelevantNews [sitemapItem] = [sitemapItem] := by
  refine ⟨by decide, by decide⟩

/-- C7 (amended): every item surviving the relevance filter has a title
containing none of the code's exclusion patterns (home, contact, about,
privacy, terms, `site map` with a space, english, japanese, menu),
case-insensitively — regardless of any positive keyword in title or URL. -/
theorem filterRelevantNews_rejects_excluded (l : List NewsItem) (item : NewsItem)
    (h : item ∈ filterRelevantNews l) :
    ∀ pat ∈ excludePatterns, jincludes (toLowerCase item.title) pat = false := by
  have h1 := (mem_filterRelevantNews h).1
  intro pat hpat
  simpa using List.any_eq_false.mp h1 pat hpat

/-- C7 amended-claim witness: the surviving example item's title does not
contain the pattern `home`. -/
theorem filterRelevantNews_rejects_excluded_witness :
    jincludes (toLowerCase exItemA.title) (jstr "home") = false :=
  filterRelevantNews_rejects_excluded [exItemA] exItemA (by decide)
    (jstr "home") (by decide)

/-- C8: every item surviving the relevance filter has a title length inside
[15, 150], and every candidate with a shorter or longer title is
rejected. -/
theorem filterRelevantNews_title_length_band (l : List NewsItem) (item : NewsItem) :
    (item ∈ filterRelevantNews l →
      15 ≤ item.title.length ∧ item.title.length ≤ 150)
    ∧ ((item.title.length < 15 ∨ 150 < item.title.length) →
      item ∉ filterRelevantNews l) := by
  constructor
  · intro h
    have hb := (mem_filterRelevantNews h).2
    omega
  · rintro hlen h
    have hb := (mem_filterRelevantNews h).2
    omega

/-- C8 witness: the surviving example item's title length is inside the
band. -/
theorem filterRelevantNews_title_length_band_witness :
    15 ≤ exItemA.title.length ∧ exItemA.title.length ≤ 150 :=
  (filterRelevantNews_title_length_band [exItemA] exItemA).1 (by decide)

/-- C9 counterexample: on the empty summaries list, `sendNewsDigest`
returns no outcome record at all (the JS `return;` yields `undefined`),
refuting the claim that every input yields a success or failure record. -/
theorem sendNewsDigest_empty_cex :
    sendNewsDigest (fun _ _ => Except.ok (jstr "mid-0")) [] exMeta = none := rfl

/-- C9 (amended): for every transport behaviour and every nonempty
summaries list, `sendNewsDigest` returns an outcome record — success with a
message identifier, or failure with an error — and, being total, never
throws; on the empty list it returns no outcome (`undefined`). -/
theorem sendNewsDigest_nonempty_outcome
    (transport : List SummarizedItem → EmailMeta → Except JStr JStr)
    (summaries : List SummarizedItem) (emailMeta : EmailMeta)
    (h : summaries ≠ []) :
    (∃ id, sendNewsDigest transport summaries emailMeta = some (.success id))
    ∨ (∃ e, sendNewsDigest transport summaries emailMeta = some (.failure e)) := by
  unfold sendNewsDigest
  rw [if_neg (by simpa [List.length_eq_zero] using h)]
  cases transport summaries emailMeta with
  | ok id => exact Or.inl ⟨id, rfl⟩
  | error e => exact Or.inr ⟨e, rfl⟩

/-- C9 amended-claim witness: a succeeding transport on a one-item list
yields an outcome record. -/
theorem sendNewsDigest_nonempty_outcome_witness :
    (∃ id, sendNewsDigest (fun _ _ => Except.ok (jstr "mid-1")) [exProcessedA] exMeta
        = some (.success id))
    ∨ (∃ e, sendNewsDigest (fun _ _ => Except.ok (jstr "mid-1")) [exProcessedA] exMeta
        = some (.failure e)) :=
  sendNewsDigest_nonempty_outcome (fun _ _ => Except.ok (jstr "mid-1"))
    [exProcessedA] exMeta (by decide)

/-- C10: the scraping pipeline returns at most 5 items — the filtered,
deduplicated candidate list is truncated to its first 5 elements. -/
theorem scrapeNews_returns_at_most_five (collected : List NewsItem) :
    (scrapeNewsPipeline collected).length ≤ 5 := by
  simp only [scrapeNewsPipeline]
  rw [List.length_take]
  omega

end SumoUpdates
